import Mathlib

/-!
A shallow embedding of the detection engine and watch pipeline of the
AI_Ransomware_system backend (`backend/app/utils/static_analysis.py`,
`backend/app/utils/file_monitor.py`, `backend/app/api/endpoints/analysis.py`),
together with theorems checking the design document's claims about them.

Python's `re` module is an external library; it is modelled by an abstract
matcher parameter `Finditer` (pattern string, flags, subject ↦ ordered list of
non-overlapping matches), exactly as the source code consumes `re.finditer`.
Machine floats of the scoring function are modelled by exact rationals.
-/

namespace AIRW

/-- One match as returned by `re.finditer`: the character index of the match
start in the subject string and the matched text (`match.start()`,
`match.group(0)`). -/
structure RMatch where
  start : Nat
  text : String
deriving DecidableEq, Repr

/-- The regex flags the source passes to `re.finditer`: `re.IGNORECASE` and
`re.DOTALL`. -/
structure Flags where
  ignorecase : Bool
  dotall : Bool
deriving DecidableEq, Repr

/-- The interface of `re.finditer`: pattern string, flags, subject string to
the ordered list of non-overlapping matches. The scan drivers below are
parametric in it, as the source is in the `re` library. -/
abbrev Finditer := String → Flags → String → List RMatch

/-- No flag passed: `re.finditer(regex, line)`. -/
def noFlags : Flags := { ignorecase := false, dotall := false }

/-- One catalog entry's metadata: the fields of the nested pattern tables in
`static_analysis.py`. -/
structure PatternInfo where
  pattern : String
  description : String
  severity : String
  context_lines : Nat
deriving DecidableEq, Repr

/-- `JS_PATTERNS` of `static_analysis.py`, in dict insertion order. -/
def JS_PATTERNS : List (String × PatternInfo) := [
  ("eval_usage",
    { pattern := "eval\\s*\\((.+?)\\)",
      description := "Use of eval() to execute arbitrary code",
      severity := "high", context_lines := 2 }),
  ("function_constructor",
    { pattern := "new\\s+Function\\s*\\((.+?)\\)",
      description := "Use of Function constructor for dynamic code execution",
      severity := "high", context_lines := 2 }),
  ("encoded_strings",
    { pattern := "(?:atob|btoa|unescape|escape|decodeURIComponent|encodeURIComponent)\\s*\\((.+?)\\)",
      description := "String encoding/decoding functions",
      severity := "medium", context_lines := 1 }),
  ("document_write",
    { pattern := "document\\.write\\s*\\((.+?)\\)",
      description := "Dynamic content injection with document.write",
      severity := "medium", context_lines := 1 }),
  ("base64_content",
    { pattern := "['\\\"]([A-Za-z0-9+/]{20,}(?:==|=)?)['\\\"]",
      description := "Potential Base64 encoded content",
      severity := "low", context_lines := 0 }),
  ("network_access",
    { pattern := "(?:https?:\\/\\/|\\d{1,3}\\.\\d{1,3}\\.\\d{1,3}\\.\\d{1,3})",
      description := "Network access to external resources",
      severity := "medium", context_lines := 1 }),
  ("filesystem_access",
    { pattern := "(?:fs\\.|require\\(['\\\"]fs['\\\"]\\)|FileSystem|ActiveXObject\\(['\\\"]Scripting\\.FileSystemObject['\\\"]\\))",
      description := "Attempt to access file system",
      severity := "high", context_lines := 2 }),
  ("environment_detection",
    { pattern := "navigator\\.userAgent|screen\\.width|screen\\.height|navigator\\.language|navigator\\.platform",
      description := "Environment detection (potential fingerprinting)",
      severity := "low", context_lines := 1 }),
  ("string_obfuscation",
    { pattern := "String\\.fromCharCode|charCodeAt\\(\\d+\\)|\\\\x[0-9a-fA-F]{2}|\\\\u[0-9a-fA-F]{4}",
      description := "String obfuscation techniques",
      severity := "medium", context_lines := 1 }),
  ("websocket_usage",
    { pattern := "new\\s+WebSocket\\s*\\(['\\\"]ws",
      description := "WebSocket communication",
      severity := "medium", context_lines := 1 })
]

/-- `HTML_PATTERNS` of `static_analysis.py`, in dict insertion order. -/
def HTML_PATTERNS : List (String × PatternInfo) := [
  ("obfuscated_script",
    { pattern := "<script[^>]*>(?:(?!<\\/script>).)*?(eval|String\\.fromCharCode|unescape|escape|atob|btoa|\\\\x[0-9a-fA-F]{2}|\\\\u[0-9a-fA-F]{4})(?:(?!<\\/script>).)*?<\\/script>",
      description := "Obfuscated JavaScript code in script tag",
      severity := "high", context_lines := 2 }),
  ("suspicious_iframe",
    { pattern := "<iframe[^>]*(?:hidden|display\\s*:\\s*none|visibility\\s*:\\s*hidden|width\\s*=\\s*['\\\"]?0|height\\s*=\\s*['\\\"]?0)[^>]*>",
      description := "Hidden or zero-sized iframe (potential malicious content)",
      severity := "high", context_lines := 2 }),
  ("suspicious_script_src",
    { pattern := "<script[^>]*src\\s*=\\s*['\\\"](?:https?:)?\\/\\/(?!(?:code\\.jquery\\.com|cdnjs\\.cloudflare\\.com|ajax\\.googleapis\\.com|cdn\\.jsdelivr\\.net|unpkg\\.com|stackpath\\.bootstrapcdn\\.com))([^'\\\"]+)['\\\"][^>]*>",
      description := "Script loaded from suspicious external source",
      severity := "medium", context_lines := 1 }),
  ("encoded_attribute",
    { pattern := "<[^>]+(?:src|href|data|style|onerror|onload|onclick)\\s*=\\s*['\\\"](?:data:text\\/html|javascript:)[^'\\\"]*(?:base64|eval|atob|fromCharCode|escape|unescape)[^'\\\"]*['\\\"]",
      description := "Encoded content in HTML attributes",
      severity := "high", context_lines := 2 }),
  ("event_handler_script",
    { pattern := "<[^>]+(?:on\\w+)\\s*=\\s*['\\\"][^'\\\"]*(?:eval|Function|setTimeout|setInterval|document\\.write)[^'\\\"]*['\\\"]",
      description := "JavaScript execution via event handler",
      severity := "high", context_lines := 2 }),
  ("meta_refresh",
    { pattern := "<meta[^>]*http-equiv\\s*=\\s*['\\\"]refresh['\\\"][^>]*content\\s*=\\s*['\\\"][^'\\\"]*url\\s*=\\s*(?!https?:\\/\\/(?:www\\.)?(?:google\\.com|microsoft\\.com|apple\\.com))[^'\\\"]*['\\\"]",
      description := "Suspicious page redirect via meta refresh",
      severity := "medium", context_lines := 1 }),
  ("base_tag_manipulation",
    { pattern := "<base[^>]*href\\s*=\\s*['\\\"](?!https?:\\/\\/(?:www\\.)?(?:google\\.com|microsoft\\.com|apple\\.com))[^'\\\"]+['\\\"]",
      description := "Base tag manipulation (can redirect relative URLs)",
      severity := "medium", context_lines := 1 })
]

/-- `PYTHON_PATTERNS` of `static_analysis.py`, in dict insertion order. -/
def PYTHON_PATTERNS : List (String × PatternInfo) := [
  ("exec_eval_usage",
    { pattern := "(?:exec|eval)\\s*\\((.+?)\\)",
      description := "Use of exec/eval to execute arbitrary code",
      severity := "high", context_lines := 2 }),
  ("os_system_calls",
    { pattern := "(?:os\\.system|subprocess\\.(?:call|Popen|run)|commands\\.getoutput|popen|popen2|exec[lv][ep]?)\\s*\\((.+?)\\)",
      description := "OS command execution",
      severity := "high", context_lines := 2 }),
  ("suspicious_imports",
    { pattern := "import\\s+(?:subprocess|os|sys|tempfile|shutil|base64|binascii|zlib|pickle|marshal|ctypes|socket)",
      description := "Import of potentially dangerous module",
      severity := "medium", context_lines := 1 }),
  ("network_operations",
    { pattern := "(?:socket\\.(?:socket|connect|bind|listen|accept)|urllib\\.(?:request|parse)|requests\\.(?:get|post|put|delete|patch))",
      description := "Network connection operation",
      severity := "medium", context_lines := 1 }),
  ("file_operations",
    { pattern := "(?:open|file)\\s*\\([^,)]+,\\s*['\\\"](?:w|a|r\\+|w\\+|a\\+|wb|ab|r\\+b|w\\+b|a\\+b)['\\\"]",
      description := "File write operation",
      severity := "medium", context_lines := 1 }),
  ("base64_operations",
    { pattern := "base64\\.(?:b64encode|b64decode|standard_b64encode|standard_b64decode)",
      description := "Base64 encoding/decoding (potential obfuscation)",
      severity := "medium", context_lines := 1 }),
  ("temp_file_creation",
    { pattern := "tempfile\\.(?:NamedTemporaryFile|mkstemp|mkdtemp)",
      description := "Temporary file/directory creation",
      severity := "low", context_lines := 1 }),
  ("code_compilation",
    { pattern := "compile\\s*\\((.+?),\\s*[\\'\\\"]",
      description := "Dynamic code compilation",
      severity := "high", context_lines := 2 }),
  ("process_creation",
    { pattern := "multiprocessing\\.Process|threading\\.Thread|concurrent\\.futures",
      description := "Process/thread creation",
      severity := "low", context_lines := 1 })
]

/-- `POWERSHELL_PATTERNS` of `static_analysis.py`, in dict insertion order. -/
def POWERSHELL_PATTERNS : List (String × PatternInfo) := [
  ("obfuscated_command",
    { pattern := "\\$(?:\\w+)\\s*=\\s*(?:\\[[^\\]]+\\])?(?:'\\w{1,2}'\\s*\\+\\s*)+|(?:-join|join)\\s+(?:\\[char\\]\\d+\\s*(?:,\\s*)?)+|(?:\\[[char\\]\\]\\s*\\(\\s*\\d+\\s*(?:,\\s*\\d+\\s*)*\\)\\s*-join\\s*'')",
      description := "Obfuscated command construction",
      severity := "high", context_lines := 2 }),
  ("base64_payload",
    { pattern := "(?:-enc|-encodedcommand|-e)\\s+[A-Za-z0-9+/]{20,}(?:==)?|(?:FromBase64String|ConvertTo-SecureString)(?:\\s*\\(\\s*|\\s+)(?:['\\\"])(?:[A-Za-z0-9+/]{20,}(?:==)?)(?:['\\\"])",
      description := "Base64 encoded payload",
      severity := "high", context_lines := 2 }),
  ("suspicious_cmdlets",
    { pattern := "(?:Invoke-Expression|IEX|Invoke-Command|Invoke-WmiMethod|Invoke-CimMethod|New-Object|Start-Process|New-Service|Start-Job|Invoke-Item|Invoke-WebRequest|wget|curl|Net\\.WebClient|DownloadString|DownloadFile)",
      description := "Potentially dangerous cmdlet usage",
      severity := "high", context_lines := 2 }),
  ("script_download",
    { pattern := "(?:Net\\.WebClient|System\\.Net\\.WebClient|Invoke-WebRequest|curl|wget|Start-BitsTransfer)[\\s\\S]{0,60}?(?:DownloadString|DownloadFile|OutFile)",
      description := "Download and potential execution of external content",
      severity := "high", context_lines := 2 }),
  ("execution_bypass",
    { pattern := "(?:-ExecutionPolicy\\s+Bypass|-EP\\s+Bypass|-Exec\\s+Bypass|ExecutionPolicy\\s+(?:Unrestricted|Bypass))",
      description := "Bypassing PowerShell execution policy",
      severity := "high", context_lines := 2 }),
  ("hidden_execution",
    { pattern := "(?:-WindowStyle\\s+Hidden|-W\\s+Hidden|WindowStyle\\s*=\\s*\\\"Hidden\\\"|\\$Host\\.UI\\.RawUI\\.WindowSize\\.Height\\s*=\\s*0)",
      description := "Hiding PowerShell console window",
      severity := "high", context_lines := 2 }),
  ("wmi_usage",
    { pattern := "(?:Get-WmiObject|gwmi|WmiObject|Invoke-WmiMethod|Get-CimInstance|New-CimInstance)",
      description := "WMI/CIM interaction (potential for system changes)",
      severity := "medium", context_lines := 1 }),
  ("registry_operations",
    { pattern := "(?:HKLM:|HKCU:|Registry::|Microsoft\\.Win32\\.Registry)",
      description := "Registry manipulation",
      severity := "medium", context_lines := 1 }),
  ("scheduled_task",
    { pattern := "(?:New-ScheduledTask|Register-ScheduledTask|schtasks)",
      description := "Scheduled task creation/manipulation",
      severity := "medium", context_lines := 1 })
]

/-- One detection result dict produced by the analysis functions. -/
structure Finding where
  pattern_name : String
  description : String
  severity : String
  line_number : Nat
  matched_text : String
  context : List String
deriving DecidableEq, Repr

/-- `content.split('\n')` on the character sequence: Python `str.split` with a
one-character separator (no collapsing, `"".split('\n') == ['']`). -/
def splitLines (content : String) : List String :=
  (content.toList.splitOn '\n').map String.mk

/-- Python slicing `s[:n]`: the first `n` characters of `s`. -/
def strTake (s : String) (n : Nat) : String :=
  String.mk (s.toList.take n)

/-- Python `str.lower()` (ASCII case folding, as used on the file-type
aliases). -/
def strLower (s : String) : String :=
  String.mk (s.toList.map Char.toLower)

/-- The context slice shared by all analysis functions:
`start_line = max(0, line_num - context_lines - 1)` (ℕ subtraction truncates
at 0, matching `max(0, ·)` on integers), `end_line = min(len(lines),
line_num + context_lines)`, `context = lines[start_line:end_line]`. -/
def contextWindow (lines : List String) (line_num context_lines : Nat) : List String :=
  let start_line := line_num - context_lines - 1
  let end_line := min lines.length (line_num + context_lines)
  (lines.drop start_line).take (end_line - start_line)

/-- The line-by-line scan loop shared by the analysis functions: for each line
(`enumerate(lines, 1)`, so `line_number = index + 1`), for each
`re.finditer` match on that line, append one result dict. -/
def scanLine (finditer : Finditer) (flags : Flags) (lines : List String)
    (pattern_name : String) (info : PatternInfo) : List Finding :=
  lines.enum.foldl (fun results q =>
    (finditer info.pattern flags q.2).foldl (fun results m =>
      results ++ [{ pattern_name := pattern_name, description := info.description,
                    severity := info.severity, line_number := q.1 + 1,
                    matched_text := m.text,
                    context := contextWindow lines (q.1 + 1) info.context_lines }]) results) []

/-- The whole-content scan loop used for the multi-line patterns of
`analyze_html` and `analyze_powershell`: `re.finditer` over the full content,
`line_num = content[:match.start()].count('\n') + 1`, and
`matched_text[:100] + ("..." if len(matched_text) > 100 else "")`. -/
def scanDocument (finditer : Finditer) (flags : Flags) (content : String)
    (lines : List String) (pattern_name : String) (info : PatternInfo) : List Finding :=
  (finditer info.pattern flags content).foldl (fun results m =>
    let matched_text := m.text
    let line_num := (content.toList.take m.start).count '\n' + 1
    results ++ [{ pattern_name := pattern_name, description := info.description,
                  severity := info.severity, line_number := line_num,
                  matched_text := strTake matched_text 100 ++
                    (if matched_text.length > 100 then "..." else ""),
                  context := contextWindow lines line_num info.context_lines }]) []

/-- `analyze_javascript`: every `JS_PATTERNS` entry in catalog order, scanned
line by line with `re.finditer(regex, line)` (no flags). -/
def analyze_javascript (finditer : Finditer) (content : String) : List Finding :=
  let lines := splitLines content
  JS_PATTERNS.foldl (fun results p =>
    results ++ scanLine finditer noFlags lines p.1 p.2) []

/-- `analyze_html`: every `HTML_PATTERNS` entry in catalog order;
`obfuscated_script` and `suspicious_iframe` are searched in the full content
with `re.DOTALL | re.IGNORECASE`, the rest line by line with
`re.IGNORECASE`. -/
def analyze_html (finditer : Finditer) (content : String) : List Finding :=
  let lines := splitLines content
  HTML_PATTERNS.foldl (fun results p =>
    results ++
      (if p.1 ∈ ["obfuscated_script", "suspicious_iframe"] then
        scanDocument finditer { ignorecase := true, dotall := true } content lines p.1 p.2
      else
        scanLine finditer { ignorecase := true, dotall := false } lines p.1 p.2)) []

/-- `analyze_python`: every `PYTHON_PATTERNS` entry in catalog order, scanned
line by line with `re.finditer(regex, line)` (no flags). -/
def analyze_python (finditer : Finditer) (content : String) : List Finding :=
  let lines := splitLines content
  PYTHON_PATTERNS.foldl (fun results p =>
    results ++ scanLine finditer noFlags lines p.1 p.2) []

/-- `analyze_powershell`: every `POWERSHELL_PATTERNS` entry in catalog order;
`script_download` and `obfuscated_command` are searched in the full content
with `re.IGNORECASE | re.DOTALL`, the rest line by line with
`re.IGNORECASE`. -/
def analyze_powershell (finditer : Finditer) (content : String) : List Finding :=
  let lines := splitLines content
  POWERSHELL_PATTERNS.foldl (fun results p =>
    results ++
      (if p.1 ∈ ["script_download", "obfuscated_command"] then
        scanDocument finditer { ignorecase := true, dotall := true } content lines p.1 p.2
      else
        scanLine finditer { ignorecase := true, dotall := false } lines p.1 p.2)) []

/-- `dict.get(k)` on the Python dict, modelled as an insertion-ordered
association list with unique keys. -/
def dictGet (d : List (String × Nat)) (k : String) : Option Nat :=
  match d with
  | [] => none
  | p :: rest => if p.1 = k then some p.2 else dictGet rest k

/-- `dict[k] = v` on the Python dict: update the existing slot in place,
else append a new one (Python dicts preserve insertion order). -/
def dictSet (d : List (String × Nat)) (k : String) (v : Nat) : List (String × Nat) :=
  match d with
  | [] => [(k, v)]
  | p :: rest => if p.1 = k then (k, v) :: rest else p :: dictSet rest k v

/-- `get_pattern_count`: for each result,
`pattern_count[name] = pattern_count.get(name, 0) + 1` starting from `{}`. -/
def get_pattern_count (analysis_results : List Finding) : List (String × Nat) :=
  analysis_results.foldl
    (fun pattern_count r =>
      dictSet pattern_count r.pattern_name
        ((dictGet pattern_count r.pattern_name).getD 0 + 1)) []

/-- The `severity_weights` dict lookup `severity_weights.get(severity, 0.5)`. -/
def severity_weights (severity : String) : ℚ :=
  if severity = "high" then 1.0
  else if severity = "medium" then 0.6
  else if severity = "low" then 0.3
  else 0.5

/-- `calculate_suspicion_score`: 0 on an empty list; otherwise the
severity-weighted sum, normalized by `min(1.0, 1 - 1/(1 + 0.5*total))` and
forced to 0 when `total_score <= 0.3`. Floats are modelled by exact
rationals. -/
def calculate_suspicion_score (analysis_results : List Finding) : ℚ :=
  if analysis_results.isEmpty then 0.0
  else
    let total_score :=
      analysis_results.foldl (fun acc r => acc + severity_weights r.severity) 0.0
    let normalized_score := min 1.0 (1 - 1 / (1 + 0.5 * total_score))
    if total_score ≤ 0.3 then 0.0 else normalized_score

/-- The `summary` dict of `analyze_file_content`. -/
structure Summary where
  pattern_count : List (String × Nat)
  total_detections : Nat
  suspicion_score : ℚ
deriving DecidableEq, Repr

/-- The result dict of `analyze_file_content`. -/
structure AnalysisOutput where
  success : Bool
  error : Option String
  results : List Finding
  summary : Summary
deriving DecidableEq, Repr

/-- The success branch tail of `analyze_file_content`: build the
pattern-count map, the suspicion score and the summary. -/
def mkSuccess (results : List Finding) : AnalysisOutput :=
  { success := true, error := none, results := results,
    summary := { pattern_count := get_pattern_count results,
                 total_detections := results.length,
                 suspicion_score := calculate_suspicion_score results } }

/-- `analyze_file_content(file_content, file_type)`: reject empty content,
lower-case and dispatch the file type over the supported aliases, reject an
unsupported type; failures carry a zeroed summary. The `try/except` wrapper of
the source never fires here: the model is total. -/
def analyze_file_content (finditer : Finditer) (file_content : String)
    (file_type : String) : AnalysisOutput :=
  if file_content = "" then
    { success := false, error := some "Empty file content", results := [],
      summary := { pattern_count := [], total_detections := 0, suspicion_score := 0.0 } }
  else
    let ft := strLower file_type
    if ft ∈ ["javascript", "js"] then mkSuccess (analyze_javascript finditer file_content)
    else if ft ∈ ["html", "htm"] then mkSuccess (analyze_html finditer file_content)
    else if ft ∈ ["python", "py"] then mkSuccess (analyze_python finditer file_content)
    else if ft ∈ ["powershell", "ps1"] then mkSuccess (analyze_powershell finditer file_content)
    else
      { success := false, error := some ("Unsupported file type: " ++ ft), results := [],
        summary := { pattern_count := [], total_detections := 0, suspicion_score := 0.0 } }

/-! ## File monitor (`file_monitor.py`) -/

/-- The filesystem facts and watch-registration outcomes the monitor consults:
`os.path.exists`, `os.path.isdir`, and whether `Observer.schedule/start`
raises for a path. -/
structure FMEnv where
  path_exists : String → Bool
  isdir : String → Bool
  schedule_ok : String → Bool

/-- The mutable state of a `FileMonitor`: the keys of the `observers` dict,
the `monitored_paths` set (insertion order), and the `running` flag. -/
structure FMState where
  observers : List String
  monitored_paths : List String
  running : Bool
deriving DecidableEq, Repr

/-- The status dict returned by `start_monitoring` (fields absent from a
branch's dict are `none`). -/
structure StartResult where
  status : String
  monitored_paths : Option (List String)
  invalid_paths : Option (List String)
  message : Option String
deriving DecidableEq, Repr

/-- The body of the `for path in paths` loop of `start_monitoring`: a
nonexistent or non-directory path, or one whose `Observer.schedule/start`
raises, is appended to `invalid_paths`; otherwise the observer is recorded
and the path appended to `valid_paths` and added to `monitored_paths`. -/
def start_step (env : FMEnv) (acc : FMState × List String × List String)
    (path : String) : FMState × List String × List String :=
  let (s, valid_paths, invalid_paths) := acc
  if !(env.path_exists path) || !(env.isdir path) then
    (s, valid_paths, invalid_paths ++ [path])
  else if env.schedule_ok path then
    ({ s with observers := s.observers ++ [path],
              monitored_paths := s.monitored_paths ++ [path] },
     valid_paths ++ [path], invalid_paths)
  else
    (s, valid_paths, invalid_paths ++ [path])

/-- `FileMonitor.start_monitoring(paths, callback, file_extensions)`: an
"already running" no-op while running; otherwise classify each path
(nonexistent or not-a-directory, or watch registration raising, lands in
`invalid_paths`), start one observer per valid path, and succeed exactly when
at least one path is valid. The callback and extension filter do not affect
this state and are elided. -/
def start_monitoring (env : FMEnv) (st : FMState) (paths : List String) :
    FMState × StartResult :=
  if st.running then
    (st, { status := "already_running", monitored_paths := none,
           invalid_paths := none, message := some "Monitoring is already active" })
  else
    let acc := paths.foldl (start_step env) (st, [], [])
    if acc.2.1 ≠ [] then
      ({ acc.1 with running := true },
       { status := "started", monitored_paths := some acc.2.1,
         invalid_paths := some acc.2.2, message := none })
    else
      (acc.1, { status := "failed", monitored_paths := none,
                invalid_paths := some acc.2.2,
                message := some "No valid paths to monitor" })

/-- One queued `(event_type, file_path)` work item, with `procOk` modelling
whether the per-file processing block (extension mapping, settle sleep,
callback) completes without raising. -/
structure WItem where
  event_type : String
  path : String
  procOk : Bool
deriving DecidableEq, Repr

/-- `l[-n:]`: the last `n` elements of a Python list. -/
def lastN (n : Nat) (l : List String) : List String :=
  l.drop (l.length - n)

/-- One iteration of `FileMonitorHandler._process_queue`, acting on the
`processed_files` set (modelled as its insertion-ordered element list).
`enumOrder` models the unspecified iteration order `list(processed_files)`
of the Python set: any permutation of the elements. `none` models
`queue.Empty` (clear the set); a present path is skipped; after a successful
callback the path is added and, past 100 entries, the set is rebuilt from the
last 50 of its iteration order. The second component is the path handed to
the callback, if any. -/
def process_iteration (enumOrder : List String → List String)
    (processed : List String) (inp : Option WItem) :
    List String × Option String :=
  match inp with
  | none => ([], none)
  | some it =>
    if it.path ∈ processed then (processed, none)
    else
      let processed' :=
        if it.procOk then
          let p1 := processed ++ [it.path]
          if p1.length > 100 then lastN 50 (enumOrder p1) else p1
        else processed
      (processed', some it.path)

/-! ## Broadcaster (`api/endpoints/analysis.py`) -/

/-- `broadcast_analysis_result(result)` over the `active_connections` list:
return at once when empty; otherwise serialize once, try `send_text` on every
connection collecting the failing ones in `disconnected`, then remove each
collected connection (guarded by membership) from the list. `send_text c s`
models whether `await c.send_text(s)` succeeds; the surrounding `except`
swallows its failure. The second component records every delivery attempt
with its payload. -/
def broadcast_analysis_result {Conn R : Type} [DecidableEq Conn]
    (send_text : Conn → String → Bool) (dumps : R → String)
    (active_connections : List Conn) (result : R) :
    List Conn × List (Conn × String) :=
  if active_connections = [] then (active_connections, [])
  else
    let serializable_result := dumps result
    let da := active_connections.foldl
      (fun (acc : List Conn × List (Conn × String)) connection =>
        ((if send_text connection serializable_result then acc.1
          else acc.1 ++ [connection]),
         acc.2 ++ [(connection, serializable_result)]))
      ([], [])
    let final := da.1.foldl
      (fun conns connection =>
        if connection ∈ conns then conns.erase connection else conns)
      active_connections
    (final, da.2)

/-! ## Spec-side definitions

Definitions in this section follow the design document's wording; the
theorems below compare them with the code-side definitions above. -/

/-- The spec wording of the context window: the lines in the inclusive
1-indexed window `[line_number - context_lines, line_number + context_lines]`
clamped to the document's first and last line. -/
def specWindow (lines : List String) (line_number context_lines : Nat) : List String :=
  let lo := max 1 (line_number - context_lines)
  let hi := min lines.length (line_number + context_lines)
  (lines.drop (lo - 1)).take (hi + 1 - lo)

/-- The spec wording of line mode: for each line (1-indexed), one finding per
non-overlapping match, with context `specWindow`. -/
def lineFindings_spec (finditer : Finditer) (flags : Flags) (lines : List String)
    (pattern_name : String) (info : PatternInfo) : List Finding :=
  lines.enum.flatMap (fun q =>
    (finditer info.pattern flags q.2).map (fun m =>
      { pattern_name := pattern_name, description := info.description,
        severity := info.severity, line_number := q.1 + 1,
        matched_text := m.text,
        context := specWindow lines (q.1 + 1) info.context_lines }))

/-- The spec wording of the document-mode truncation: the first 100 characters
followed by an ellipsis marker exactly when the match is longer than 100
characters, otherwise the full match. -/
def truncate_spec (s : String) : String :=
  if 100 < s.length then strTake s 100 ++ "..." else s

/-- The spec wording of document mode: the regex applied to the whole content,
one finding per match, `line_number` = one plus the number of newline
characters preceding the match start, `matched_text` = `truncate_spec`. -/
def docFindings_spec (finditer : Finditer) (flags : Flags) (content : String)
    (lines : List String) (pattern_name : String) (info : PatternInfo) : List Finding :=
  (finditer info.pattern flags content).map (fun m =>
    { pattern_name := pattern_name, description := info.description,
      severity := info.severity,
      line_number := (content.toList.take m.start).count '\n' + 1,
      matched_text := truncate_spec m.text,
      context := contextWindow lines ((content.toList.take m.start).count '\n' + 1)
        info.context_lines })

/-- The severity weights named by the claim: high=1.0, medium=0.6, low=0.3. -/
def spec_weight (severity : String) : ℚ :=
  if severity = "high" then 1.0
  else if severity = "medium" then 0.6
  else if severity = "low" then 0.3
  else 0.0

/-- The scoring formula as the claim states it: `raw` = sum of the severity
weights, score = `1 - 1/(1 + 0.5*raw)` capped at 1.0, clamped to 0.0 whenever
`raw ≤ 0.3`. -/
def score_spec (findings : List Finding) : ℚ :=
  let raw := (findings.map (fun r => spec_weight r.severity)).sum
  if raw ≤ 0.3 then 0.0 else min 1.0 (1 - 1 / (1 + 0.5 * raw))

/-- The sum of the occurrence counts of a pattern-count dict. -/
def sumValues (d : List (String × Nat)) : Nat :=
  (d.map Prod.snd).sum

/-- The key list of a pattern-count dict. -/
def dictKeys (d : List (String × Nat)) : List String :=
  d.map Prod.fst

/-! ## Concrete example data -/

/-- A two-line JavaScript snippet: a URL on line 1, an `eval` call on
line 2. -/
def js_example_content : String := "http://x\neval(a)"

/-- `re.finditer` evaluated at the pattern/subject pairs that
`analyze_javascript` reaches on `js_example_content`: the `eval_usage` regex
matches all of line 2, the `network_access` regex matches `http://` on
line 1, and no other `JS_PATTERNS` regex matches either line. -/
def finditer_js_example : Finditer := fun pat _ subject =>
  if pat = "eval\\s*\\((.+?)\\)" ∧ subject = "eval(a)" then
    [{ start := 0, text := "eval(a)" }]
  else if pat = "(?:https?:\\/\\/|\\d{1,3}\\.\\d{1,3}\\.\\d{1,3}\\.\\d{1,3})" ∧
      subject = "http://x" then
    [{ start := 0, text := "http://" }]
  else []

/-- The findings `analyze_javascript` produces on `js_example_content`: the
`eval_usage` finding (line 2) precedes the `network_access` finding (line 1)
because `eval_usage` comes first in the catalog. -/
def js_example_findings : List Finding := [
  { pattern_name := "eval_usage",
    description := "Use of eval() to execute arbitrary code",
    severity := "high", line_number := 2, matched_text := "eval(a)",
    context := ["http://x", "eval(a)"] },
  { pattern_name := "network_access",
    description := "Network access to external resources",
    severity := "medium", line_number := 1, matched_text := "http://",
    context := ["http://x", "eval(a)"] }]

/-- A finditer that never matches (used to instantiate hypotheses at concrete
inputs). -/
def finditer_none : Finditer := fun _ _ _ => []

/-- A concrete high-severity finding. -/
def finding_high : Finding :=
  { pattern_name := "eval_usage", description := "d", severity := "high",
    line_number := 1, matched_text := "eval(x)", context := [] }

/-- A concrete low-severity finding. -/
def finding_low : Finding :=
  { pattern_name := "base64_content", description := "d", severity := "low",
    line_number := 1, matched_text := "QUFBQUFBQUFBQUFBQUFBQUFBQUE=", context := [] }

/-- A dedup window holding 100 distinct paths, as left behind after 100
processed files. -/
def window100 : List String := (List.range 100).map (fun i => "f" ++ toString i)

/-- A filesystem in which exactly the path "d1" exists, is a directory, and
accepts a watch. -/
def env_example : FMEnv :=
  { path_exists := fun p => p == "d1", isdir := fun p => p == "d1",
    schedule_ok := fun _ => true }

/-- A monitor that is not running and watches nothing. -/
def st_idle : FMState := { observers := [], monitored_paths := [], running := false }

/-! ## Helper lemmas -/

theorem foldl_append_flatMap {α β : Type} (g : α → List β) :
    ∀ (l : List α) (init : List β),
      l.foldl (fun acc a => acc ++ g a) init = init ++ l.flatMap g := by
  intro l
  induction l with
  | nil => intro init; simp
  | cons x xs ih => intro init; simp [ih]

theorem foldl_append_map {α β : Type} (g : α → β) :
    ∀ (l : List α) (init : List β),
      l.foldl (fun acc a => acc ++ [g a]) init = init ++ l.map g := by
  intro l
  induction l with
  | nil => intro init; simp
  | cons x xs ih => intro init; simp [ih]

theorem contextWindow_eq_specWindow (lines : List String) (ln ctx : Nat) :
    contextWindow lines ln ctx = specWindow lines ln ctx := by
  simp only [contextWindow, specWindow]
  have h1 : max 1 (ln - ctx) - 1 = ln - ctx - 1 := by omega
  have h2 : min lines.length (ln + ctx) + 1 - max 1 (ln - ctx)
      = min lines.length (ln + ctx) - (ln - ctx - 1) := by omega
  rw [h1, h2]

theorem scanLine_eq_spec (f : Finditer) (fl : Flags) (lines : List String)
    (n : String) (info : PatternInfo) :
    scanLine f fl lines n info = lineFindings_spec f fl lines n info := by
  simp only [scanLine, lineFindings_spec, foldl_append_map, foldl_append_flatMap,
    List.nil_append, contextWindow_eq_specWindow]

theorem truncate_eq (s : String) :
    strTake s 100 ++ (if s.length > 100 then "..." else "") = truncate_spec s := by
  unfold truncate_spec
  by_cases h : 100 < s.length
  · simp only [gt_iff_lt, h, if_true]
  · simp only [gt_iff_lt, h, if_false]
    have htake : s.toList.take 100 = s.toList :=
      List.take_of_length_le (Nat.le_of_not_lt h)
    rw [strTake, htake]
    cases s with
    | mk data =>
      show String.mk (data ++ []) = String.mk data
      rw [List.append_nil]

theorem scanDocument_eq_spec (f : Finditer) (fl : Flags) (content : String)
    (lines : List String) (n : String) (info : PatternInfo) :
    scanDocument f fl content lines n info
      = docFindings_spec f fl content lines n info := by
  simp only [scanDocument, docFindings_spec, foldl_append_map, List.nil_append]
  refine List.map_congr_left (fun m _ => ?_)
  rw [← truncate_eq]

theorem analyze_javascript_eq (f : Finditer) (c : String) :
    analyze_javascript f c
      = JS_PATTERNS.flatMap (fun p => scanLine f noFlags (splitLines c) p.1 p.2) := by
  simp only [analyze_javascript, foldl_append_flatMap, List.nil_append]

theorem analyze_python_eq (f : Finditer) (c : String) :
    analyze_python f c
      = PYTHON_PATTERNS.flatMap (fun p => scanLine f noFlags (splitLines c) p.1 p.2) := by
  simp only [analyze_python, foldl_append_flatMap, List.nil_append]

theorem analyze_html_eq (f : Finditer) (c : String) :
    analyze_html f c
      = HTML_PATTERNS.flatMap (fun p =>
          if p.1 ∈ ["obfuscated_script", "suspicious_iframe"] then
            scanDocument f { ignorecase := true, dotall := true } c (splitLines c) p.1 p.2
          else
            scanLine f { ignorecase := true, dotall := false } (splitLines c) p.1 p.2) := by
  simp only [analyze_html, foldl_append_flatMap, List.nil_append]

theorem analyze_powershell_eq (f : Finditer) (c : String) :
    analyze_powershell f c
      = POWERSHELL_PATTERNS.flatMap (fun p =>
          if p.1 ∈ ["script_download", "obfuscated_command"] then
            scanDocument f { ignorecase := true, dotall := true } c (splitLines c) p.1 p.2
          else
            scanLine f { ignorecase := true, dotall := false } (splitLines c) p.1 p.2) := by
  simp only [analyze_powershell, foldl_append_flatMap, List.nil_append]

theorem severity_weights_nonneg (s : String) : 0 ≤ severity_weights s := by
  unfold severity_weights
  split_ifs <;> norm_num

theorem severity_weights_ge (s : String) : (0.3 : ℚ) ≤ severity_weights s := by
  unfold severity_weights
  split_ifs <;> norm_num

theorem total_foldl_append (l : List Finding) (f : Finding) (a : ℚ) :
    (l ++ [f]).foldl (fun acc r => acc + severity_weights r.severity) a
      = l.foldl (fun acc r => acc + severity_weights r.severity) a
        + severity_weights f.severity := by
  simp [List.foldl_append]

theorem total_nonneg :
    ∀ (l : List Finding) (a : ℚ), 0 ≤ a →
      0 ≤ l.foldl (fun acc r => acc + severity_weights r.severity) a := by
  intro l
  induction l with
  | nil => intro a ha; simpa using ha
  | cons x xs ih =>
    intro a ha
    simp only [List.foldl_cons]
    exact ih _ (add_nonneg ha (severity_weights_nonneg _))

theorem foldl_eq_map_sum (l : List Finding) :
    ∀ a : ℚ, l.foldl (fun acc r => acc + severity_weights r.severity) a
      = a + (l.map (fun r => severity_weights r.severity)).sum := by
  induction l with
  | nil => intro a; simp
  | cons x xs ih => intro a; simp [ih, add_assoc]

theorem norm_score_nonneg (t : ℚ) (ht : 0 ≤ t) :
    0 ≤ min 1.0 (1 - 1 / (1 + 0.5 * t)) := by
  have h1 : (0 : ℚ) < 1 + 0.5 * t := by linarith
  have h2 : 1 / (1 + 0.5 * t) ≤ 1 := by
    rw [div_le_one h1]; linarith
  exact le_min (by norm_num) (by linarith)

theorem norm_score_mono (t u : ℚ) (ht : 0 ≤ t) (h : t ≤ u) :
    min 1.0 (1 - 1 / (1 + 0.5 * t)) ≤ min 1.0 (1 - 1 / (1 + 0.5 * u)) := by
  have h1 : (0 : ℚ) < 1 + 0.5 * t := by linarith
  have h2 : 1 + 0.5 * t ≤ 1 + 0.5 * u := by linarith
  have h3 := one_div_le_one_div_of_le h1 h2
  exact min_le_min le_rfl (by linarith)

theorem score_bounds (l : List Finding) :
    0 ≤ calculate_suspicion_score l ∧ calculate_suspicion_score l ≤ 1 := by
  unfold calculate_suspicion_score
  by_cases he : l.isEmpty = true
  · simp only [he, if_true]
    norm_num
  · simp only [he, if_false]
    have ht : 0 ≤ l.foldl (fun acc r => acc + severity_weights r.severity) 0.0 :=
      total_nonneg l 0.0 (by norm_num)
    by_cases hc : l.foldl (fun acc r => acc + severity_weights r.severity) 0.0 ≤ 0.3
    · simp only [hc, if_true]
      norm_num
    · simp only [hc, if_false]
      exact ⟨norm_score_nonneg _ ht, min_le_left _ _ |>.trans (by norm_num)⟩

theorem score_mono (l : List Finding) (f : Finding) :
    calculate_suspicion_score l ≤ calculate_suspicion_score (l ++ [f]) := by
  by_cases he : l.isEmpty = true
  · have hl : l = [] := List.isEmpty_iff.mp he
    subst hl
    have h0 : calculate_suspicion_score [] = 0.0 := by
      simp [calculate_suspicion_score]
    rw [h0, List.nil_append]
    exact le_trans (by norm_num) (score_bounds [f]).1
  · have he' : (l ++ [f]).isEmpty = false := by
      simp [List.isEmpty_iff]
    unfold calculate_suspicion_score
    simp only [he, he', Bool.false_eq_true, if_false]
    rw [total_foldl_append]
    have ht : 0 ≤ l.foldl (fun acc r => acc + severity_weights r.severity) 0.0 :=
      total_nonneg l 0.0 (by norm_num)
    have hw : (0.3 : ℚ) ≤ severity_weights f.severity := severity_weights_ge _
    set t := l.foldl (fun acc r => acc + severity_weights r.severity) 0.0 with hdef
    by_cases h2 : t + severity_weights f.severity ≤ 0.3
    · have h1 : t ≤ 0.3 := by linarith
      simp [h1, h2]
    · simp only [h2, if_false]
      by_cases h1 : t ≤ 0.3
      · simp only [h1, if_true]
        exact le_trans (by norm_num) (norm_score_nonneg _ (by linarith))
      · simp only [h1, if_false]
        exact norm_score_mono t (t + severity_weights f.severity) ht (by linarith)

theorem score_eq_spec (l : List Finding)
    (hl : ∀ f ∈ l, f.severity = "high" ∨ f.severity = "medium" ∨ f.severity = "low") :
    calculate_suspicion_score l = score_spec l := by
  unfold calculate_suspicion_score score_spec
  by_cases he : l.isEmpty = true
  · have hl0 : l = [] := List.isEmpty_iff.mp he
    subst hl0
    norm_num
  · simp only [he, if_false]
    have hmap : l.map (fun r => severity_weights r.severity)
        = l.map (fun r => spec_weight r.severity) :=
      List.map_congr_left (fun r hr => by
        rcases hl r hr with h | h | h <;> simp [severity_weights, spec_weight, h])
    rw [foldl_eq_map_sum, hmap, show (0.0 : ℚ) = 0 by norm_num, zero_add]
    simp only [Bool.false_eq_true, if_false]

theorem dictSet_bump_sum (d : List (String × Nat)) (k : String) :
    sumValues (dictSet d k ((dictGet d k).getD 0 + 1)) = sumValues d + 1 := by
  induction d with
  | nil => simp [dictSet, dictGet, sumValues]
  | cons p rest ih =>
    by_cases h : p.1 = k
    · simp only [dictSet, dictGet, h, if_true, sumValues, List.map_cons, List.sum_cons,
        Option.getD_some]
      omega
    · simp only [dictSet, dictGet, h, if_false, sumValues, List.map_cons,
        List.sum_cons] at ih ⊢
      omega

theorem dictSet_keys_mem (d : List (String × Nat)) (k : String) (v : Nat) (q : String) :
    q ∈ dictKeys (dictSet d k v) ↔ q ∈ dictKeys d ∨ q = k := by
  induction d with
  | nil => simp [dictSet, dictKeys]
  | cons p rest ih =>
    by_cases h : p.1 = k
    · subst h
      simp only [dictSet, if_true, dictKeys, List.map_cons, List.mem_cons]
      tauto
    · simp only [dictSet, h, if_false, dictKeys, List.map_cons, List.mem_cons] at ih ⊢
      tauto

theorem dictSet_pos (d : List (String × Nat)) (k : String) (v : Nat) (hv : 0 < v) :
    ∀ q ∈ dictSet d k v, 0 < q.2 ∨ q ∈ d := by
  induction d with
  | nil =>
    intro q hq
    simp only [dictSet, List.mem_singleton] at hq
    subst hq
    exact Or.inl hv
  | cons p rest ih =>
    intro q hq
    by_cases h : p.1 = k
    · simp only [dictSet, h, if_true, List.mem_cons] at hq
      rcases hq with h1 | h1
      · subst h1; exact Or.inl hv
      · exact Or.inr (List.mem_cons_of_mem _ h1)
    · simp only [dictSet, h, if_false, List.mem_cons] at hq
      rcases hq with h1 | h1
      · subst h1; exact Or.inr (List.mem_cons_self _ _)
      · rcases ih q h1 with h2 | h2
        · exact Or.inl h2
        · exact Or.inr (List.mem_cons_of_mem _ h2)

theorem gpc_fold (rs : List Finding) :
    ∀ d : List (String × Nat),
      sumValues (rs.foldl (fun pc r =>
          dictSet pc r.pattern_name ((dictGet pc r.pattern_name).getD 0 + 1)) d)
        = sumValues d + rs.length
      ∧ (∀ k, k ∈ dictKeys (rs.foldl (fun pc r =>
            dictSet pc r.pattern_name ((dictGet pc r.pattern_name).getD 0 + 1)) d)
          ↔ k ∈ dictKeys d ∨ k ∈ rs.map (fun r => r.pattern_name))
      ∧ ((∀ q ∈ d, 0 < q.2) →
          ∀ q ∈ rs.foldl (fun pc r =>
            dictSet pc r.pattern_name ((dictGet pc r.pattern_name).getD 0 + 1)) d,
            0 < q.2) := by
  induction rs with
  | nil => intro d; simp
  | cons r rest ih =>
    intro d
    simp only [List.foldl_cons, List.map_cons]
    obtain ⟨ihs, ihk, ihp⟩ :=
      ih (dictSet d r.pattern_name ((dictGet d r.pattern_name).getD 0 + 1))
    refine ⟨?_, ?_, ?_⟩
    · rw [ihs, dictSet_bump_sum]
      simp only [List.length_cons]
      omega
    · intro k
      rw [ihk, dictSet_keys_mem]
      simp only [List.mem_cons]
      tauto
    · intro hd
      refine ihp (fun q hq => ?_)
      rcases dictSet_pos d r.pattern_name _ (by omega) q hq with h | h
      · exact h
      · exact hd q h

theorem get_pattern_count_sum (rs : List Finding) :
    sumValues (get_pattern_count rs) = rs.length := by
  have h := (gpc_fold rs []).1
  simpa [get_pattern_count, sumValues] using h

theorem get_pattern_count_keys (rs : List Finding) (k : String) :
    k ∈ dictKeys (get_pattern_count rs) ↔ k ∈ rs.map (fun r => r.pattern_name) := by
  have h := (gpc_fold rs []).2.1 k
  simpa [get_pattern_count, dictKeys] using h

theorem get_pattern_count_pos (rs : List Finding) :
    ∀ q ∈ get_pattern_count rs, 0 < q.2 := by
  have h := (gpc_fold rs []).2.2
  simpa [get_pattern_count] using h (by simp)

theorem get_pattern_count_empty_iff (rs : List Finding) :
    get_pattern_count rs = [] ↔ rs = [] := by
  constructor
  · intro h
    by_contra hne
    rcases List.exists_mem_of_ne_nil rs hne with ⟨r, hr⟩
    have hk : r.pattern_name ∈ dictKeys (get_pattern_count rs) :=
      (get_pattern_count_keys rs r.pattern_name).mpr (List.mem_map_of_mem _ hr)
    rw [h] at hk
    simp [dictKeys] at hk
  · intro h; subst h; rfl

theorem broadcast_fold {Conn : Type} [DecidableEq Conn]
    (send_text : Conn → String → Bool) (payload : String) :
    ∀ (l : List Conn) (d : List Conn) (a : List (Conn × String)),
      l.foldl (fun (acc : List Conn × List (Conn × String)) connection =>
          ((if send_text connection payload then acc.1 else acc.1 ++ [connection]),
           acc.2 ++ [(connection, payload)])) (d, a)
        = (d ++ l.filter (fun c => !(send_text c payload)),
           a ++ l.map (fun c => (c, payload))) := by
  intro l
  induction l with
  | nil => intro d a; simp
  | cons c cs ih =>
    intro d a
    by_cases h : send_text c payload
    · simp [h, ih]
    · simp [h, ih]

theorem foldl_erase_guard_eq {Conn : Type} [DecidableEq Conn] :
    ∀ (d l : List Conn),
      d.foldl (fun conns c => if c ∈ conns then conns.erase c else conns) l
        = d.foldl (fun conns c => conns.erase c) l := by
  intro d
  induction d with
  | nil => intro l; rfl
  | cons c cs ih =>
    intro l
    simp only [List.foldl_cons]
    rw [show (if c ∈ l then l.erase c else l) = l.erase c by
      split_ifs with h
      · rfl
      · rw [List.erase_of_not_mem h]]
    exact ih _

theorem foldl_erase_cons_of_ne {Conn : Type} [DecidableEq Conn]
    (d : List Conn) (x : Conn) (hx : ∀ c ∈ d, c ≠ x) :
    ∀ l : List Conn,
      d.foldl (fun conns c => conns.erase c) (x :: l)
        = x :: d.foldl (fun conns c => conns.erase c) l := by
  induction d with
  | nil => intro l; rfl
  | cons c cs ih =>
    intro l
    simp only [List.foldl_cons]
    rw [List.erase_cons_tail (by
      have h := hx c (List.mem_cons_self _ _)
      simp only [beq_iff_eq]
      exact fun hc => h hc.symm)]
    exact ih (fun c hc => hx c (List.mem_cons_of_mem _ hc)) _

theorem erase_fold_filter {Conn : Type} [DecidableEq Conn] (p : Conn → Bool) :
    ∀ l : List Conn,
      (l.filter (fun c => !(p c))).foldl (fun conns c => conns.erase c) l
        = l.filter p := by
  intro l
  induction l with
  | nil => rfl
  | cons x xs ih =>
    by_cases h : p x
    · have hfil : (x :: xs).filter (fun c => !(p c)) = xs.filter (fun c => !(p c)) := by
        simp [h]
      rw [hfil, foldl_erase_cons_of_ne _ x (fun c hc hcx => by
        subst hcx
        simp [List.mem_filter, h] at hc), ih]
      simp [h]
    · have hfil : (x :: xs).filter (fun c => !(p c))
          = x :: xs.filter (fun c => !(p c)) := by simp [h]
      rw [hfil]
      simp only [List.foldl_cons, List.erase_cons_head]
      rw [ih]
      simp [h]

theorem start_fold (env : FMEnv) :
    ∀ (paths : List String) (st : FMState) (v i : List String),
      (paths.foldl (start_step env) (st, v, i)).1.running = st.running
      ∧ (paths.foldl (start_step env) (st, v, i)).2.1
        = v ++ paths.filter (fun p => env.path_exists p && env.isdir p && env.schedule_ok p)
      ∧ (paths.foldl (start_step env) (st, v, i)).2.2
        = i ++ paths.filter (fun p =>
            !(env.path_exists p && env.isdir p && env.schedule_ok p)) := by
  intro paths
  induction paths with
  | nil => intro st v i; simp
  | cons path rest ih =>
    intro st v i
    simp only [List.foldl_cons]
    by_cases he : env.path_exists path
    · by_cases hd : env.isdir path
      · by_cases hs : env.schedule_ok path
        · have hstep : start_step env (st, v, i) path
              = ({ st with observers := st.observers ++ [path],
                           monitored_paths := st.monitored_paths ++ [path] },
                 v ++ [path], i) := by
            simp [start_step, he, hd, hs]
          rw [hstep]
          obtain ⟨h1, h2, h3⟩ := ih _ (v ++ [path]) i
          refine ⟨h1, ?_, ?_⟩
          · rw [h2]; simp [he, hd, hs]
          · rw [h3]; simp [he, hd, hs]
        · have hstep : start_step env (st, v, i) path = (st, v, i ++ [path]) := by
            simp [start_step, he, hd, hs]
          rw [hstep]
          obtain ⟨h1, h2, h3⟩ := ih st v (i ++ [path])
          refine ⟨h1, ?_, ?_⟩
          · rw [h2]; simp [he, hd, hs]
          · rw [h3]; simp [he, hd, hs]
      · have hstep : start_step env (st, v, i) path = (st, v, i ++ [path]) := by
          simp [start_step, he, hd]
        rw [hstep]
        obtain ⟨h1, h2, h3⟩ := ih st v (i ++ [path])
        refine ⟨h1, ?_, ?_⟩
        · rw [h2]; simp [he, hd]
        · rw [h3]; simp [he, hd]
    · have hstep : start_step env (st, v, i) path = (st, v, i ++ [path]) := by
        simp [start_step, he]
      rw [hstep]
      obtain ⟨h1, h2, h3⟩ := ih st v (i ++ [path])
      refine ⟨h1, ?_, ?_⟩
      · rw [h2]; simp [he]
      · rw [h3]; simp [he]

theorem lastN_length_le (n : Nat) (l : List String) : (lastN n l).length ≤ n := by
  simp only [lastN, List.length_drop]
  omega

/-! ## Claim theorems -/

/-- C1: for findings carrying the catalog severities, the suspicion score is
exactly `raw = Σ weight(severity)` with weights high=1.0, medium=0.6,
low=0.3, normalized as `1 - 1/(1 + 0.5·raw)` capped at 1.0 and clamped to
0.0 whenever `raw ≤ 0.3`; in particular one low-severity finding scores 0
and the empty findings list scores 0. -/
theorem C1_suspicion_score_formula :
    (∀ l : List Finding,
      (∀ f ∈ l, f.severity = "high" ∨ f.severity = "medium" ∨ f.severity = "low") →
      calculate_suspicion_score l = score_spec l)
    ∧ (∀ f : Finding, f.severity = "low" → calculate_suspicion_score [f] = 0)
    ∧ calculate_suspicion_score [] = 0 := by
  refine ⟨fun l hl => score_eq_spec l hl, fun f hf => ?_,
    by norm_num [calculate_suspicion_score]⟩
  have hw : severity_weights f.severity = 0.3 := by simp [severity_weights, hf]
  have hc : ((0.0 : ℚ) + 0.3) ≤ 0.3 := by norm_num
  simp only [calculate_suspicion_score, List.isEmpty_cons, List.foldl_cons,
    List.foldl_nil, hw, Bool.false_eq_true, if_false, hc, if_true]
  norm_num

/-- C1 witness: the formula agreement applied to a concrete high-severity
singleton, and the zero clamp applied to a concrete low-severity singleton. -/
theorem C1_witness :
    calculate_suspicion_score [finding_high] = score_spec [finding_high]
    ∧ calculate_suspicion_score [finding_low] = 0 :=
  ⟨C1_suspicion_score_formula.1 [finding_high]
      (by intro f hf; simp only [List.mem_singleton] at hf; subst hf; left; rfl),
   C1_suspicion_score_formula.2.1 finding_low rfl⟩

/-- C2: `analyze_file_content` returns a structured failure with the zeroed
summary — and does not raise — on empty content, and on a non-empty content
whose lowercased type is not a supported alias, naming the unsupported
type in the error. -/
theorem C2_validation_failures :
    ∀ (finditer : Finditer) (content lang : String),
      (content = "" →
        analyze_file_content finditer content lang =
          { success := false, error := some "Empty file content", results := [],
            summary := { pattern_count := [], total_detections := 0,
                         suspicion_score := 0.0 } })
      ∧ (content ≠ "" →
          strLower lang ∉ (["javascript", "js", "html", "htm",
              "python", "py", "powershell", "ps1"] : List String) →
          analyze_file_content finditer content lang =
            { success := false,
              error := some ("Unsupported file type: " ++ strLower lang),
              results := [],
              summary := { pattern_count := [], total_detections := 0,
                           suspicion_score := 0.0 } }) := by
  intro f content lang
  constructor
  · intro h
    subst h
    simp [analyze_file_content]
  · intro hne hmem
    simp only [List.mem_cons, List.mem_singleton, not_or] at hmem
    obtain ⟨h1, h2, h3, h4, h5, h6, h7, h8⟩ := hmem
    unfold analyze_file_content
    rw [if_neg hne]
    simp only [List.mem_cons, List.mem_singleton]
    rw [if_neg (by tauto), if_neg (by tauto), if_neg (by tauto), if_neg (by tauto)]

/-- C2 witness: the empty-content failure on a concrete call, and the
unsupported-type failure on a concrete call with a mixed-case unsupported
language. -/
theorem C2_witness :
    analyze_file_content finditer_none "" "javascript" =
      { success := false, error := some "Empty file content", results := [],
        summary := { pattern_count := [], total_detections := 0,
                     suspicion_score := 0.0 } }
    ∧ analyze_file_content finditer_none "x" "RUBY" =
      { success := false, error := some ("Unsupported file type: " ++ strLower "RUBY"),
        results := [],
        summary := { pattern_count := [], total_detections := 0,
                     suspicion_score := 0.0 } } :=
  ⟨(C2_validation_failures finditer_none "" "javascript").1 rfl,
   (C2_validation_failures finditer_none "x" "RUBY").2 (by decide) (by decide)⟩

/-- C3: scanning is deterministic (a pure function of content, language and
the regex engine), and findings are emitted in catalog order first, then
match-occurrence order within each pattern — never re-sorted by line number:
on the concrete two-line example the `eval_usage` finding (catalog position
1, line 2) precedes the `network_access` finding (catalog position 6,
line 1). -/
theorem C3_catalog_order :
    (∀ (f : Finditer) (c₁ c₂ t₁ t₂ : String), c₁ = c₂ → t₁ = t₂ →
      analyze_file_content f c₁ t₁ = analyze_file_content f c₂ t₂)
    ∧ (∀ (f : Finditer) (c : String),
      analyze_javascript f c
        = JS_PATTERNS.flatMap (fun p => scanLine f noFlags (splitLines c) p.1 p.2))
    ∧ (∀ (f : Finditer) (c : String),
      analyze_python f c
        = PYTHON_PATTERNS.flatMap (fun p => scanLine f noFlags (splitLines c) p.1 p.2))
    ∧ (∀ (f : Finditer) (c : String),
      analyze_html f c
        = HTML_PATTERNS.flatMap (fun p =>
            if p.1 ∈ ["obfuscated_script", "suspicious_iframe"] then
              scanDocument f { ignorecase := true, dotall := true } c (splitLines c) p.1 p.2
            else
              scanLine f { ignorecase := true, dotall := false } (splitLines c) p.1 p.2))
    ∧ (∀ (f : Finditer) (c : String),
      analyze_powershell f c
        = POWERSHELL_PATTERNS.flatMap (fun p =>
            if p.1 ∈ ["script_download", "obfuscated_command"] then
              scanDocument f { ignorecase := true, dotall := true } c (splitLines c) p.1 p.2
            else
              scanLine f { ignorecase := true, dotall := false } (splitLines c) p.1 p.2))
    ∧ analyze_javascript finditer_js_example js_example_content = js_example_findings
    ∧ js_example_findings.map (fun r => r.line_number) = [2, 1] := by
  refine ⟨fun f c₁ c₂ t₁ t₂ hc ht => by rw [hc, ht],
    analyze_javascript_eq, analyze_python_eq, analyze_html_eq, analyze_powershell_eq,
    by decide, by decide⟩

/-- C3 witness: the determinism conjunct applied at concrete equal inputs. -/
theorem C3_witness :
    analyze_file_content finditer_none "eval(x)" "js"
      = analyze_file_content finditer_none "eval(x)" "js" :=
  C3_catalog_order.1 finditer_none "eval(x)" "eval(x)" "js" "js" rfl rfl

/-- C4: in line mode the content is split into lines and, for every pattern
and every non-overlapping match on a line, one finding is emitted whose
line number is the 1-indexed line and whose context is exactly the inclusive
window `[line - context_lines, line + context_lines]` clamped to the
document bounds. -/
theorem C4_line_mode :
    ∀ (f : Finditer) (c : String),
      analyze_javascript f c
        = JS_PATTERNS.flatMap (fun p => lineFindings_spec f noFlags (splitLines c) p.1 p.2)
      ∧ analyze_python f c
        = PYTHON_PATTERNS.flatMap (fun p => lineFindings_spec f noFlags (splitLines c) p.1 p.2) := by
  intro f c
  constructor
  · rw [analyze_javascript_eq]
    simp only [scanLine_eq_spec]
  · rw [analyze_python_eq]
    simp only [scanLine_eq_spec]

/-- C5: in document mode (HTML `obfuscated_script`/`suspicious_iframe`,
PowerShell `script_download`/`obfuscated_command`) the regex runs over the
whole content with ignore-case and dot-matches-newline flags, each finding's
line number is one plus the newlines preceding the match start, and the
matched text is truncated to 100 characters plus an ellipsis exactly when
longer than 100 characters. -/
theorem C5_document_mode :
    (∀ (f : Finditer) (fl : Flags) (content : String) (lines : List String)
        (n : String) (info : PatternInfo),
      scanDocument f fl content lines n info
        = docFindings_spec f fl content lines n info)
    ∧ (∀ (f : Finditer) (c : String),
      analyze_html f c
        = HTML_PATTERNS.flatMap (fun p =>
            if p.1 ∈ ["obfuscated_script", "suspicious_iframe"] then
              docFindings_spec f { ignorecase := true, dotall := true } c (splitLines c) p.1 p.2
            else
              scanLine f { ignorecase := true, dotall := false } (splitLines c) p.1 p.2))
    ∧ (∀ (f : Finditer) (c : String),
      analyze_powershell f c
        = POWERSHELL_PATTERNS.flatMap (fun p =>
            if p.1 ∈ ["script_download", "obfuscated_command"] then
              docFindings_spec f { ignorecase := true, dotall := true } c (splitLines c) p.1 p.2
            else
              scanLine f { ignorecase := true, dotall := false } (splitLines c) p.1 p.2)) := by
  refine ⟨scanDocument_eq_spec, fun f c => ?_, fun f c => ?_⟩
  · rw [analyze_html_eq]
    simp only [scanDocument_eq_spec]
  · rw [analyze_powershell_eq]
    simp only [scanDocument_eq_spec]

/-- C6: the suspicion score always lies in [0, 1] and is monotonically
non-decreasing under appending a finding to the findings list. -/
theorem C6_score_bounds_monotone :
    ∀ (l : List Finding) (f : Finding),
      0 ≤ calculate_suspicion_score l ∧ calculate_suspicion_score l ≤ 1
      ∧ calculate_suspicion_score l ≤ calculate_suspicion_score (l ++ [f]) :=
  fun l f => ⟨(score_bounds l).1, (score_bounds l).2, score_mono l f⟩

/-- C7: starting the monitor while not running collects every nonexistent,
non-directory or unregistrable path into `invalid_paths`; with at least one
valid path it returns "started" with exactly the valid paths and transitions
to running, with none it returns "failed" and stays not running. -/
theorem C7_start_monitoring :
    ∀ (env : FMEnv) (st : FMState) (paths : List String),
      st.running = false →
      ((paths.filter (fun p => env.path_exists p && env.isdir p && env.schedule_ok p) ≠ [] →
        (start_monitoring env st paths).2.status = "started"
        ∧ (start_monitoring env st paths).2.monitored_paths
          = some (paths.filter (fun p => env.path_exists p && env.isdir p && env.schedule_ok p))
        ∧ (start_monitoring env st paths).2.invalid_paths
          = some (paths.filter (fun p =>
              !(env.path_exists p && env.isdir p && env.schedule_ok p)))
        ∧ (start_monitoring env st paths).1.running = true)
      ∧ (paths.filter (fun p => env.path_exists p && env.isdir p && env.schedule_ok p) = [] →
        (start_monitoring env st paths).2.status = "failed"
        ∧ (start_monitoring env st paths).2.invalid_paths
          = some (paths.filter (fun p =>
              !(env.path_exists p && env.isdir p && env.schedule_ok p)))
        ∧ (start_monitoring env st paths).1.running = false)) := by
  intro env st paths hrun
  obtain ⟨h1, h2, h3⟩ := start_fold env paths st [] []
  simp only [List.nil_append] at h2 h3
  unfold start_monitoring
  rw [if_neg (by simp [hrun])]
  constructor
  · intro hne
    rw [if_pos (by rw [h2]; exact hne)]
    exact ⟨rfl, by simp [h2], by simp [h3], rfl⟩
  · intro heq
    rw [if_neg (by rw [h2]; simpa using heq)]
    exact ⟨rfl, by simp [h3], by rw [h1, hrun]⟩

/-- C7 witness: one valid directory "d1" and one bad path "bad" give
status "started", `monitored_paths = ["d1"]`, `invalid_paths = ["bad"]`, and
a running pipeline. -/
theorem C7_witness :
    (start_monitoring env_example st_idle ["d1", "bad"]).2.status = "started"
    ∧ (start_monitoring env_example st_idle ["d1", "bad"]).2.monitored_paths = some ["d1"]
    ∧ (start_monitoring env_example st_idle ["d1", "bad"]).2.invalid_paths = some ["bad"]
    ∧ (start_monitoring env_example st_idle ["d1", "bad"]).1.running = true := by
  have h := (C7_start_monitoring env_example st_idle ["d1", "bad"] rfl).1 (by decide)
  obtain ⟨ha, hb, hc, hd⟩ := h
  refine ⟨ha, ?_, ?_, hd⟩
  · rw [hb]; decide
  · rw [hc]; decide

/-- C8 (amended): the dedup window is cleared whenever the queue is found
empty, a path already present is skipped without invoking the callback, the
window never exceeds 100 entries across an iteration, and on overflow past
100 it is immediately compacted to at most 50 entries drawn from the window
— which 50 depends on the set's unspecified iteration order, not
necessarily the most recent ones. -/
theorem C8_dedup_window_bounded :
    ∀ (enumOrder : List String → List String),
      (∀ l, (enumOrder l).Perm l) →
      ∀ (processed : List String) (inp : Option WItem),
        (processed.length ≤ 100 →
          (process_iteration enumOrder processed inp).1.length ≤ 100)
        ∧ process_iteration enumOrder processed none = ([], none)
        ∧ (∀ it, inp = some it → it.path ∈ processed →
            process_iteration enumOrder processed inp = (processed, none))
        ∧ (∀ it, inp = some it → it.path ∉ processed → it.procOk = true →
            100 ≤ processed.length →
            (process_iteration enumOrder processed inp).1.length ≤ 50)
        ∧ (∀ it, inp = some it →
            (process_iteration enumOrder processed inp).1 ⊆ processed ++ [it.path]) := by
  intro enumOrder hperm processed inp
  refine ⟨?_, rfl, ?_, ?_, ?_⟩
  · intro hlen
    match inp with
    | none => simp [process_iteration]
    | some it =>
      by_cases hmem : it.path ∈ processed
      · simpa [process_iteration, hmem] using hlen
      · by_cases hok : it.procOk
        · simp only [process_iteration, hmem, if_false, hok, if_true]
          by_cases hbig : (processed ++ [it.path]).length > 100
          · simp only [hbig, if_true]
            exact le_trans (lastN_length_le 50 _) (by norm_num)
          · simp only [hbig, if_false]
            omega
        · simpa [process_iteration, hmem, hok] using hlen
  · intro it hit hmem
    subst hit
    simp [process_iteration, hmem]
  · intro it hit hmem hok hlen
    subst hit
    have hbig : (processed ++ [it.path]).length > 100 := by
      simp only [List.length_append, List.length_cons, List.length_nil]
      omega
    simp only [process_iteration, hmem, if_false, hok, if_true, hbig]
    exact lastN_length_le 50 _
  · intro it hit
    subst hit
    by_cases hmem : it.path ∈ processed
    · simp only [process_iteration, hmem, if_true]
      exact fun a ha => List.mem_append_left _ ha
    · by_cases hok : it.procOk
      · simp only [process_iteration, hmem, if_false, hok, if_true]
        by_cases hbig : (processed ++ [it.path]).length > 100
        · simp only [hbig, if_true]
          intro a ha
          have h1 : a ∈ enumOrder (processed ++ [it.path]) :=
            List.drop_subset _ _ ha
          exact (hperm (processed ++ [it.path])).subset h1
        · simp only [hbig, if_false]
          exact fun a ha => ha
      · simp only [process_iteration, hmem, if_false, hok, if_false]
        exact fun a ha => List.mem_append_left _ ha

/-- C8 witness: the amended properties applied at the identity iteration
order on a one-element window. -/
theorem C8_witness :
    process_iteration id ["a"] none = ([], none) :=
  (C8_dedup_window_bounded id (fun l => List.Perm.refl l) ["a"] none).2.1

/-- C8 counterexample: with a window of the 100 paths f0..f99 and a new path
"f100", compaction keeps `set(list(processed_files)[-50:])`; when the set's
iteration order is the reverse of insertion order (a Python set does not
preserve insertion order), the kept entries are the oldest 50 — f0..f49 —
and the most recent path "f100" is dropped, so the window is not "the most
recent 50 entries". -/
theorem C8_counterexample :
    (process_iteration List.reverse window100
        (some { event_type := "created", path := "f100", procOk := true })).1
      ≠ lastN 50 (window100 ++ ["f100"])
    ∧ "f100" ∉ (process_iteration List.reverse window100
        (some { event_type := "created", path := "f100", procOk := true })).1 := by
  constructor
  · decide
  · decide

/-- C9: `broadcast_analysis_result` serializes once and delivers that one
payload to every current subscriber regardless of other subscribers'
failures, afterwards retaining exactly the subscribers whose delivery
succeeded (failing ones are pruned); as a total function it never raises. -/
theorem C9_broadcast_delivery :
    ∀ {Conn R : Type} [DecidableEq Conn] (send_text : Conn → String → Bool)
      (dumps : R → String) (conns : List Conn) (result : R),
      (broadcast_analysis_result send_text dumps conns result).2
        = conns.map (fun c => (c, dumps result))
      ∧ (broadcast_analysis_result send_text dumps conns result).1
        = conns.filter (fun c => send_text c (dumps result)) := by
  intro Conn R _ send_text dumps conns result
  by_cases hc : conns = []
  · subst hc
    simp [broadcast_analysis_result]
  · unfold broadcast_analysis_result
    rw [if_neg hc]
    refine ⟨?_, ?_⟩
    · simp [broadcast_fold]
    · simp only [broadcast_fold, List.nil_append]
      rw [foldl_erase_guard_eq, erase_fold_filter]

/-- C10: on every successful scan, `total_detections` equals the number of
findings and the sum of the `pattern_count` values, whose keys are exactly
the pattern ids occurring in the findings, with no zero-valued entries, and
which is empty exactly when there are no findings. -/
theorem C10_summary_consistency :
    ∀ (finditer : Finditer) (content file_type : String),
      (analyze_file_content finditer content file_type).success = true →
      (analyze_file_content finditer content file_type).summary.total_detections
        = (analyze_file_content finditer content file_type).results.length
      ∧ sumValues (analyze_file_content finditer content file_type).summary.pattern_count
        = (analyze_file_content finditer content file_type).summary.total_detections
      ∧ (∀ k, k ∈ dictKeys (analyze_file_content finditer content file_type).summary.pattern_count
          ↔ k ∈ (analyze_file_content finditer content file_type).results.map
              (fun r => r.pattern_name))
      ∧ (∀ q ∈ (analyze_file_content finditer content file_type).summary.pattern_count,
          0 < q.2)
      ∧ ((analyze_file_content finditer content file_type).summary.pattern_count = []
          ↔ (analyze_file_content finditer content file_type).results = []) := by
  intro f content ftype hs
  unfold analyze_file_content at hs ⊢
  by_cases h0 : content = ""
  · rw [if_pos h0] at hs
    simp at hs
  · rw [if_neg h0] at hs ⊢
    simp only [] at hs ⊢
    split_ifs at hs ⊢ with h1 h2 h3 h4
    all_goals
      exact ⟨rfl, get_pattern_count_sum _, fun k => get_pattern_count_keys _ k,
        get_pattern_count_pos _, get_pattern_count_empty_iff _⟩

/-- C10 witness: the summary consistency on the concrete successful
JavaScript scan of the two-line example content. -/
theorem C10_witness :
    (analyze_file_content finditer_js_example js_example_content "js").summary.total_detections
      = (analyze_file_content finditer_js_example js_example_content "js").results.length
    ∧ sumValues (analyze_file_content finditer_js_example js_example_content "js").summary.pattern_count
      = (analyze_file_content finditer_js_example js_example_content "js").summary.total_detections
    ∧ (∀ k, k ∈ dictKeys (analyze_file_content finditer_js_example js_example_content "js").summary.pattern_count
        ↔ k ∈ (analyze_file_content finditer_js_example js_example_content "js").results.map
            (fun r => r.pattern_name))
    ∧ (∀ q ∈ (analyze_file_content finditer_js_example js_example_content "js").summary.pattern_count,
        0 < q.2)
    ∧ ((analyze_file_content finditer_js_example js_example_content "js").summary.pattern_count = []
        ↔ (analyze_file_content finditer_js_example js_example_content "js").results = []) :=
  C10_summary_consistency finditer_js_example js_example_content "js" rfl

end AIRW
